import Mathlib

/-!
Shallow embedding of an Express product-catalog REST API.

The repository has two route layers with slightly different behaviour:
a self-contained server.js (custom error classes, an authenticate middleware,
express-validator checks and the full route table), and a controller module
(controllers/productController.js) wired by a router module, together with a
standalone authenticate middleware and a mongoose product model.
Both layers are embedded below; each definition names the source it is
translated from.  Mongoose documents are lists of records; timestamps and
object ids are opaque data supplied by the caller.
-/

/-- A product document of the mongoose Product model: id, name, description,
price, category, inStock and the two timestamps. -/
structure Product where
  id : String
  name : String
  description : String
  price : Rat
  category : String
  inStock : Bool
  createdAt : Nat
  updatedAt : Nat
deriving Repr, DecidableEq

/-- The products collection. -/
abbrev Store := List Product

/-- JavaScript truthiness of an optional string value: undefined and the empty
string are falsy. -/
def strTruthy : Option String → Bool
  | none => false
  | some s => s != ""

/-- server.js authenticate (lines 45-54): reads the x-api-key header and
responds 401 when the key is missing or different from the configured API key.
`none` means the middleware passed, `some s` that it responded with status s. -/
def serverAuthenticate (secret : String) (apiKey : Option String) : Option Nat :=
  if !(strTruthy apiKey) || apiKey != some secret then some 401 else none

/-- The standalone authenticate middleware (middleware file): the key is taken
from the x-api-key header or, when that is falsy, from the apiKey query
parameter; 401 when absent, 403 when present but different from the secret. -/
def middlewareAuthenticate (secret : String) (headerKey queryKey : Option String) :
    Option Nat :=
  let apiKey := if strTruthy headerKey then headerKey else queryKey
  if !(strTruthy apiKey) then some 401
  else if apiKey != some secret then some 403
  else none

/-- Character-wise lower-casing (the mongoose `lowercase: true` setter and the
case-insensitive regex option are modelled with it). -/
def lowerStr (s : String) : String := ⟨s.data.map Char.toLower⟩

/-- Whitespace recognised by trimming. -/
def isSpaceChar (c : Char) : Bool := c == ' ' || c == '\t' || c == '\n' || c == '\r'

/-- The mongoose `trim: true` setter: strip leading and trailing whitespace. -/
def trimStr (s : String) : String :=
  ⟨((s.data.dropWhile isSpaceChar).reverse.dropWhile isSpaceChar).reverse⟩

/-- Helper for splitComma: accumulates the current segment in reverse. -/
def splitCommaAux : List Char → List Char → List String
  | [], acc => [⟨acc.reverse⟩]
  | c :: rest, acc =>
    if c == ',' then ⟨acc.reverse⟩ :: splitCommaAux rest []
    else splitCommaAux rest (c :: acc)

/-- JavaScript String.prototype.split with a comma separator, as used by the
category filter of the list endpoint. -/
def splitComma (s : String) : List String := splitCommaAux s.data []

/-- Contiguous substring test on character lists. -/
def charsInfix : List Char → List Char → Bool
  | needle, [] => needle == []
  | needle, c :: rest => needle.isPrefixOf (c :: rest) || charsInfix needle rest

/-- Case-insensitive substring test: the `$regex value, $options: i` filters of
the source, for plain needles. -/
def substrCI (needle subject : String) : Bool :=
  charsInfix (lowerStr needle).data (lowerStr subject).data

/-- A thrown JavaScript error as the error middleware sees it: the custom error
classes of server.js carry a statusCode, mongoose CastError and ValidationError
do not (statusCode is then undefined, modelled as none). -/
structure JsError where
  name : String
  message : String
  statusCode : Option Nat
  stack : String
deriving Repr, DecidableEq

/-- The JSON error body produced by the error middleware, together with the
response status. -/
structure ErrorResponse where
  status : Nat
  success : Bool
  message : String
  stack : Option String
deriving Repr, DecidableEq

/-- server.js error handling middleware (lines 303-315): the status falls back
to 500 through `err.statusCode || 500` (0 is falsy in JavaScript), the message
falls back to a generic one the same way, and the stack is spread into the body
exactly when NODE_ENV equals "development". -/
def errorMiddleware (env : String) (e : JsError) : ErrorResponse :=
  let statusCode := match e.statusCode with
    | none => 500
    | some s => if s == 0 then 500 else s
  let message := if e.message == "" then "Internal Server Error" else e.message
  { status := statusCode, success := false, message := message,
    stack := if env == "development" then some e.stack else none }

/-- Hexadecimal digit test for ObjectId strings. -/
def isHexChar (c : Char) : Bool :=
  c.isDigit || ('a' ≤ c && c ≤ 'f') || ('A' ≤ c && c ≤ 'F')

/-- mongoose ObjectId casting: a string casts when it is 24 hex characters, or
12 characters taken as raw bytes. -/
def isValidObjectId (s : String) : Bool :=
  (s.data.length == 24 && s.data.all isHexChar) || s.data.length == 12

/-- The CastError mongoose throws when an id fails to cast; it carries no
statusCode. -/
def castJsError (id : String) : JsError :=
  { name := "CastError", message := "Cast to ObjectId failed for value " ++ id,
    statusCode := none, stack := "CastError" }

/-- Model.findById: rejects with a CastError when the id does not cast,
otherwise resolves with the document of that id, if any. -/
def findById (store : Store) (id : String) : Except JsError (Option Product) :=
  if isValidObjectId id then .ok (store.find? (fun p => p.id == id))
  else .error (castJsError id)

/-- A single-document response (or error response) of the id-based routes. -/
structure IdResponse where
  status : Nat
  success : Bool
  message : Option String
  data : Option Product
deriving Repr, DecidableEq

/-- controllers/productController.js getProductById (lines 75-93): responds 404
directly when the document is absent; a thrown CastError is passed by next to
the error middleware. -/
def getProductById (env : String) (store : Store) (id : String) : IdResponse :=
  match findById store id with
  | .error e =>
    let r := errorMiddleware env e
    { status := r.status, success := false, message := some r.message, data := none }
  | .ok none =>
    { status := 404, success := false,
      message := some ("Product not found with id of " ++ id), data := none }
  | .ok (some p) => { status := 200, success := true, message := none, data := some p }

/-- The NotFoundError class of server.js: statusCode 404. -/
def notFoundJsError (msg : String) : JsError :=
  { name := "NotFoundError", message := msg, statusCode := some 404,
    stack := "NotFoundError" }

/-- server.js GET /api/products/:id handler (lines 166-179): throws
NotFoundError when the document is absent; every thrown error, including a
CastError from findById, reaches the error middleware. -/
def serverGetById (env : String) (store : Store) (id : String) : IdResponse :=
  match findById store id with
  | .error e =>
    let r := errorMiddleware env e
    { status := r.status, success := false, message := some r.message, data := none }
  | .ok none =>
    let r := errorMiddleware env (notFoundJsError "Product not found")
    { status := r.status, success := false, message := some r.message, data := none }
  | .ok (some p) => { status := 200, success := true, message := none, data := some p }

/-- The handlers of the server.js route table. -/
inductive Handler where
  | root
  | listProducts
  | getById (id : String)
  | createP
  | updateP (id : String)
  | deleteP (id : String)
  | statistics
  | search
  | notFound
deriving Repr, DecidableEq

/-- The path parameter bound by the /api/products/:id route pattern, when the
path matches it (one further non-empty segment, no extra slash). -/
def productIdOf (path : String) : Option String :=
  if "/api/products/".data.isPrefixOf path.data then
    let rest := path.data.drop 14
    if rest != [] && !(rest.contains '/') then some ⟨rest⟩ else none
  else none

/-- The server.js route table in registration order; Express dispatches to the
first registered route matching the request.  GET /api/products/:id is
registered (line 166) before GET /api/products/statistics (line 233) and
GET /api/products/search (line 269). -/
def serverDispatch (method path : String) : Handler :=
  if method == "GET" && path == "/" then .root
  else if method == "GET" && path == "/api/products" then .listProducts
  else if method == "GET" && (productIdOf path).isSome then
    .getById ((productIdOf path).getD "")
  else if method == "POST" && path == "/api/products" then .createP
  else if method == "PUT" && (productIdOf path).isSome then
    .updateP ((productIdOf path).getD "")
  else if method == "DELETE" && (productIdOf path).isSome then
    .deleteP ((productIdOf path).getD "")
  else if method == "GET" && path == "/api/products/statistics" then .statistics
  else if method == "GET" && path == "/api/products/search" then .search
  else .notFound

/-- The response of the search endpoint. -/
structure SearchResponse where
  status : Nat
  success : Bool
  message : Option String
  count : Nat
  data : List Product
deriving Repr, DecidableEq

/-- server.js GET /api/products/search handler (lines 269-295): 400 when q is
missing or empty (falsy), otherwise every product whose name or description
contains q case-insensitively, with the count of the matches. -/
def searchHandler (store : Store) (q : Option String) : SearchResponse :=
  if !(strTruthy q) then
    { status := 400, success := false,
      message := some "Search query parameter q is required", count := 0, data := [] }
  else
    let s := q.getD ""
    let products := store.filter (fun p => substrCI s p.name || substrCI s p.description)
    { status := 200, success := true, message := none,
      count := products.length, data := products }

/-- The category enumeration of the mongoose product schema. -/
def validCategories : List String :=
  ["electronics", "clothing", "home", "kitchen", "sports", "other"]

/-- A request body for create and update: absent fields are none (undefined). -/
structure CreateBody where
  name : Option String
  description : Option String
  price : Option Rat
  category : Option String
  inStock : Option Bool
deriving Repr, DecidableEq

/-- The document data a successful mongoose validation produces. -/
structure ProductData where
  name : String
  description : String
  price : Rat
  category : String
  inStock : Bool
deriving Repr, DecidableEq

/-- The schema name path: trim setter, required (empty after trimming fails)
and maxlength 100. -/
def validateName (v : Option String) : Except String String :=
  match v with
  | none => .error "Please provide a product name"
  | some s =>
    let t := trimStr s
    if t == "" then .error "Please provide a product name"
    else if 100 < t.data.length then .error "Name cannot be more than 100 characters"
    else .ok t

/-- The schema description path: trim setter, required and maxlength 1000. -/
def validateDescription (v : Option String) : Except String String :=
  match v with
  | none => .error "Please provide a product description"
  | some s =>
    let t := trimStr s
    if t == "" then .error "Please provide a product description"
    else if 1000 < t.data.length then
      .error "Description cannot be more than 1000 characters"
    else .ok t

/-- The schema price path: required, min 0. -/
def validatePrice (v : Option Rat) : Except String Rat :=
  match v with
  | none => .error "Please provide a price"
  | some q => if q < 0 then .error "Price must be a positive number" else .ok q

/-- The schema category path: lowercase setter, required, enum membership. -/
def validateCategory (v : Option String) : Except String String :=
  match v with
  | none => .error "Please provide a category"
  | some s =>
    let c := lowerStr s
    if c == "" then .error "Please provide a category"
    else if c ∈ validCategories then .ok c
    else .error "not a valid category"

/-- The error entries contributed by one field validator. -/
def errList {α : Type} : Except String α → List String
  | .error e => [e]
  | .ok _ => []

/-- mongoose document validation of the product schema: all field errors are
collected into a single ValidationError; inStock defaults to true. -/
def mongooseValidate (b : CreateBody) : Except (List String) ProductData :=
  match validateName b.name, validateDescription b.description,
        validatePrice b.price, validateCategory b.category with
  | .ok n, .ok d, .ok p, .ok c =>
    .ok { name := n, description := d, price := p, category := c,
          inStock := b.inStock.getD true }
  | rn, rd, rp, rc => .error (errList rn ++ errList rd ++ errList rp ++ errList rc)

/-- controllers/productController.js createProduct (lines 98-118): the document
is built with inStock defaulted to true when undefined and saved through schema
validation; on success the new document (with its assigned id and timestamps)
is appended to the store, on a ValidationError nothing is inserted. -/
def createProduct (store : Store) (b : CreateBody) (newId : String) (now : Nat) :
    Except (List String) Product × Store :=
  let body : CreateBody := { b with inStock := some (b.inStock.getD true) }
  match mongooseValidate body with
  | .ok d =>
    let p : Product := { id := newId, name := d.name, description := d.description,
                         price := d.price, category := d.category, inStock := d.inStock,
                         createdAt := now, updatedAt := now }
    (.ok p, store ++ [p])
  | .error es => (.error es, store)

/-- controllers/productController.js updateProduct, lines 136-141: each body
field is assigned to the fetched document only when its value is truthy
(inStock whenever it is not undefined); assignments run the schema setters
(trim, lowercase); the mongoose timestamps option refreshes updatedAt when the
document was modified by the save. -/
def applyUpdate (p : Product) (b : CreateBody) (now : Nat) : Product :=
  let applyName := strTruthy b.name
  let applyDesc := strTruthy b.description
  let applyPrice := match b.price with
    | some q => decide (q ≠ 0)
    | none => false
  let applyCat := strTruthy b.category
  let applyStock := b.inStock.isSome
  { id := p.id
    name := if applyName then trimStr (b.name.getD "") else p.name
    description := if applyDesc then trimStr (b.description.getD "") else p.description
    price := if applyPrice then b.price.getD 0 else p.price
    category := if applyCat then lowerStr (b.category.getD "") else p.category
    inStock := if applyStock then b.inStock.getD p.inStock else p.inStock
    createdAt := p.createdAt
    updatedAt := if applyName || applyDesc || applyPrice || applyCat || applyStock
      then now else p.updatedAt }

/-- Query parameters of GET /api/products after JavaScript numeric coercion:
string parameters are kept raw (none when the parameter is absent), page and
limit are the coerced numbers with their defaults 1 and 10; minPrice and
maxPrice are none when absent or empty (falsy) and otherwise carry the coerced
number. -/
structure ListQuery where
  name : Option String
  minPrice : Option Rat
  maxPrice : Option Rat
  category : Option String
  inStock : Option String
  page : Nat
  limit : Nat
  sort : String
deriving Repr, DecidableEq

/-- Name filter (controller lines 24-26): only built when the parameter is
truthy; case-insensitive regex on the name. -/
def nameFilter (name : Option String) (p : Product) : Bool :=
  if strTruthy name then substrCI (name.getD "") p.name else true

/-- Price range filter (controller lines 29-33): each bound applied
independently, inclusively. -/
def priceFilter (minP maxP : Option Rat) (p : Product) : Bool :=
  (match minP with
   | none => true
   | some m => decide (m ≤ p.price)) &&
  (match maxP with
   | none => true
   | some m => decide (p.price ≤ m))

/-- Category filter (controller lines 36-38): only built when the parameter is
truthy; the value splits on commas and matches by membership. -/
def categoryFilter (cat : Option String) (p : Product) : Bool :=
  if strTruthy cat then (splitComma (cat.getD "")).contains p.category else true

/-- Stock filter (controller lines 41-43): only applied when the raw value is
the literal "true" or "false". -/
def stockFilter (inStock : Option String) (p : Product) : Bool :=
  match inStock with
  | none => true
  | some s =>
    if s == "true" then p.inStock
    else if s == "false" then !p.inStock
    else true

/-- The conjunction of the four list filters: the mongo query object built by
getProducts. -/
def matchesQuery (q : ListQuery) (p : Product) : Bool :=
  nameFilter q.name p && priceFilter q.minPrice q.maxPrice p &&
    categoryFilter q.category p && stockFilter q.inStock p

/-- The .sort(sort) stage: optional leading minus for descending order, then
the sort field.  The claims below depend only on the output being a permutation
of the input. -/
def applySort (sort : String) (l : List Product) : List Product :=
  let desc := "-".data.isPrefixOf sort.data
  let field := if desc then (⟨sort.data.drop 1⟩ : String) else sort
  let le : Product → Product → Bool :=
    if field == "createdAt" then fun a b => decide (a.createdAt ≤ b.createdAt)
    else if field == "updatedAt" then fun a b => decide (a.updatedAt ≤ b.updatedAt)
    else if field == "price" then fun a b => decide (a.price ≤ b.price)
    else if field == "name" then fun a b => decide (a.name < b.name) || a.name == b.name
    else fun _ _ => true
  let sorted := l.mergeSort le
  if desc then sorted.reverse else sorted

/-- The list response of the controller getProducts. -/
structure ListResponse where
  status : Nat
  success : Bool
  count : Nat
  total : Nat
  page : Nat
  totalPages : Nat
  hasNextPage : Bool
  hasPreviousPage : Bool
  data : List Product
deriving Repr, DecidableEq

/-- Math.ceil(total / limit) on naturals, valid for the positive-limit regime
(the source never validates limit; the C6 theorem relates this to the exact
rational ceiling). -/
def ceilDivNat (total limit : Nat) : Nat := (total + limit - 1) / limit

/-- controllers/productController.js getProducts (lines 7-70): build the filter
from the query, count the matches, fetch the sorted window with
skip = (page - 1) * limit and take = limit, and compute the pagination
metadata: totalPages = Math.ceil(total / limit), hasNextPage = page <
totalPages, hasPreviousPage = page > 1. -/
def getProducts (store : Store) (q : ListQuery) : ListResponse :=
  let matched := store.filter (matchesQuery q)
  let total := matched.length
  let window := ((applySort q.sort matched).drop ((q.page - 1) * q.limit)).take q.limit
  let totalPages := ceilDivNat total q.limit
  { status := 200, success := true, count := window.length, total := total,
    page := q.page, totalPages := totalPages,
    hasNextPage := decide (q.page < totalPages),
    hasPreviousPage := decide (1 < q.page),
    data := window }

/-- One group of the statistics aggregation. -/
structure CategoryStat where
  catId : String
  count : Nat
  avgPrice : Rat
  minPrice : Rat
  maxPrice : Rat
  totalValue : Rat
deriving Repr, DecidableEq

/-- Minimum of a price list (groups are nonempty, the default is never used). -/
def ratListMin : List Rat → Rat
  | [] => 0
  | x :: xs => xs.foldl min x

/-- Maximum of a price list (groups are nonempty, the default is never used). -/
def ratListMax : List Rat → Rat
  | [] => 0
  | x :: xs => xs.foldl max x

/-- The distinct category keys of the group stage, sorted ascending as by the
sort stage on _id. -/
def statCategories (store : Store) : List String :=
  ((store.map (fun p => p.category)).dedup).mergeSort
    (fun a b => decide (a < b) || a == b)

/-- The aggregation pipeline of getProductStats: group by category computing
count, avgPrice, minPrice, maxPrice and totalValue, sorted ascending by the
category key. -/
def byCategory (store : Store) : List CategoryStat :=
  (statCategories store).map (fun c =>
    let group := store.filter (fun p => p.category == c)
    let prices := group.map (fun p => p.price)
    { catId := c, count := group.length,
      avgPrice := (prices.foldl (fun a b => a + b) 0) / (group.length : Rat),
      minPrice := ratListMin prices, maxPrice := ratListMax prices,
      totalValue := prices.foldl (fun a b => a + b) 0 })

/-- The data object of the statistics response. -/
structure StatsData where
  totalProducts : Nat
  inStock : Nat
  outOfStock : Nat
  byCategory : List CategoryStat
deriving Repr, DecidableEq

/-- controllers/productController.js getProductStats (lines 183-213):
totalProducts is the reduce-sum of the per-category counts, inStock counts the
documents with inStock true, outOfStock is their difference. -/
def getProductStats (store : Store) : StatsData :=
  let stats := byCategory store
  let totalProducts := stats.foldl (fun acc s => acc + s.count) 0
  let inStockCount := (store.filter (fun p => p.inStock)).length
  { totalProducts := totalProducts, inStock := inStockCount,
    outOfStock := totalProducts - inStockCount, byCategory := stats }

/-! ### Theorems -/

/-- C1 counterexample: on the server.js Auth Gate, which guards the mutating
routes (POST /api/products dispatches to the create handler), a present but
wrong credential is answered with 401, not with the claimed 403. -/
theorem C1_counterexample_auth :
    serverDispatch "POST" "/api/products" = Handler.createP ∧
    serverAuthenticate "secret123" (some "wrong-key") = some 401 ∧
    (401 : Nat) ≠ 403 := by
  refine ⟨by decide, by decide, by decide⟩

/-- C1 amended: the standalone authenticate middleware answers 401 when the
credential is absent and 403 when it is present but wrong; the authenticate of
server.js, the one applied to the create, update and delete routes, answers
401 in both cases. -/
theorem C1_amended_auth (secret k : String) :
    middlewareAuthenticate secret none none = some 401 ∧
    (k ≠ "" → k ≠ secret → middlewareAuthenticate secret (some k) none = some 403) ∧
    serverAuthenticate secret none = some 401 ∧
    (k ≠ secret → serverAuthenticate secret (some k) = some 401) := by
  refine ⟨rfl, ?_, rfl, ?_⟩
  · intro hk hks
    simp [middlewareAuthenticate, strTruthy, hk, hks]
  · intro hks
    simp [serverAuthenticate, strTruthy, hks]

/-- C1 amended witness at a concrete secret and key. -/
theorem C1_amended_auth_witness :
    ("k1" : String) ≠ "" ∧ ("k1" : String) ≠ "s1" ∧
    middlewareAuthenticate "s1" (some "k1") none = some 403 ∧
    serverAuthenticate "s1" (some "k1") = some 401 :=
  ⟨by decide, by decide,
   (C1_amended_auth "s1" "k1").2.1 (by decide) (by decide),
   (C1_amended_auth "s1" "k1").2.2.2 (by decide)⟩

/-- C2 (code bug, evaluated): GET /api/products/search is dispatched to the
GET /api/products/:id handler with id "search", because the :id route is
registered first; findById rejects "search" with a CastError and the error
middleware answers 500, not the 400 the claim states.  The search handler
itself, unreachable on this path, would answer 400 on a missing or empty q. -/
theorem C2_search_route_shadowed :
    serverDispatch "GET" "/api/products/search" = Handler.getById "search" ∧
    (serverGetById "production" [] "search").status = 500 ∧
    (searchHandler [] none).status = 400 ∧
    (searchHandler [] (some "")).status = 400 := by
  refine ⟨by decide, by decide, by decide, by decide⟩

/-- C3 counterexample: a malformed id ("xyz" does not cast to an ObjectId) is
answered with status 500 by getProductById, through the CastError path of the
error middleware, not with the claimed 404. -/
theorem C3_counterexample_malformed_id :
    isValidObjectId "xyz" = false ∧
    (getProductById "production" [] "xyz").status = 500 ∧
    (500 : Nat) ≠ 404 := by
  refine ⟨by decide, by decide, by decide⟩

/-- C3 amended: getProductById answers 404 when the id is well formed but no
document carries it, and 500 when the id is not well formed (the CastError
carries no status code, so the error middleware defaults to internal server
error). -/
theorem C3_amended_getById (env : String) (store : Store) (id : String) :
    (isValidObjectId id = true → store.find? (fun p => p.id == id) = none →
      (getProductById env store id).status = 404) ∧
    (isValidObjectId id = false → (getProductById env store id).status = 500) := by
  constructor
  · intro hv hf
    simp [getProductById, findById, hv, hf]
  · intro hv
    simp [getProductById, findById, hv, errorMiddleware, castJsError]

/-- C3 amended witness: a well-formed absent id yields 404 and a malformed one
yields 500, on an empty store. -/
theorem C3_amended_getById_witness :
    isValidObjectId "0123456789abcdef01234567" = true ∧
    (getProductById "production" [] "0123456789abcdef01234567").status = 404 ∧
    isValidObjectId "xy" = false ∧
    (getProductById "production" [] "xy").status = 500 :=
  ⟨by decide,
   (C3_amended_getById "production" [] "0123456789abcdef01234567").1 (by decide) rfl,
   by decide,
   (C3_amended_getById "production" [] "xy").2 (by decide)⟩

/-- C9 counterexample: in the environment mode "test", which is not production,
an unrecognized error is answered with status 500 but the body carries no
diagnostic trace, against the claim that every non-production mode includes
one. -/
theorem C9_counterexample_trace :
    ("test" : String) ≠ "production" ∧
    (errorMiddleware "test"
      { name := "Error", message := "boom", statusCode := none,
        stack := "trace" }).status = 500 ∧
    (errorMiddleware "test"
      { name := "Error", message := "boom", statusCode := none,
        stack := "trace" }).stack = none := by
  refine ⟨by decide, by decide, by decide⟩

/-- C9 amended: an error carrying no status code is answered with 500, and the
diagnostic trace is included exactly when the environment mode is
"development", not in every non-production mode. -/
theorem C9_amended_responder (env : String) (e : JsError) :
    (e.statusCode = none → (errorMiddleware env e).status = 500) ∧
    ((errorMiddleware env e).stack = some e.stack ↔ env = "development") := by
  constructor
  · intro h
    simp [errorMiddleware, h]
  · by_cases h : env = "development" <;> simp [errorMiddleware, h]

/-- C9 amended witness at a concrete unrecognized error. -/
theorem C9_amended_responder_witness :
    ({ name := "Error", message := "boom", statusCode := none,
       stack := "trace" } : JsError).statusCode = none ∧
    (errorMiddleware "production"
      { name := "Error", message := "boom", statusCode := none,
        stack := "trace" }).status = 500 :=
  ⟨rfl, (C9_amended_responder "production" _).1 rfl⟩

/-- C4: in the controller update, a field absent from the body keeps its prior
value, the id and createdAt never change, and an update with an empty body
leaves the whole document unchanged (in particular every field other than
updatedAt). -/
theorem C4_update_frame (p : Product) (b : CreateBody) (now : Nat) :
    (b.name = none → (applyUpdate p b now).name = p.name) ∧
    (b.description = none → (applyUpdate p b now).description = p.description) ∧
    (b.price = none → (applyUpdate p b now).price = p.price) ∧
    (b.category = none → (applyUpdate p b now).category = p.category) ∧
    (b.inStock = none → (applyUpdate p b now).inStock = p.inStock) ∧
    (applyUpdate p ⟨none, none, none, none, none⟩ now = p) ∧
    (applyUpdate p b now).id = p.id ∧
    (applyUpdate p b now).createdAt = p.createdAt := by
  refine ⟨fun h => by simp [applyUpdate, h, strTruthy],
          fun h => by simp [applyUpdate, h, strTruthy],
          fun h => by simp [applyUpdate, h],
          fun h => by simp [applyUpdate, h, strTruthy],
          fun h => by simp [applyUpdate, h],
          rfl, rfl, rfl⟩

/-- C4 witness: a concrete update supplying only the price keeps the name, and
the empty update is the identity on the document. -/
theorem C4_update_frame_witness :
    (⟨none, none, some 9, none, none⟩ : CreateBody).name = none ∧
    (applyUpdate ⟨"a1", "Lamp", "Desk lamp", 5, "home", true, 3, 3⟩
      ⟨none, none, some 9, none, none⟩ 7).name = "Lamp" ∧
    applyUpdate ⟨"a1", "Lamp", "Desk lamp", 5, "home", true, 3, 3⟩
      ⟨none, none, none, none, none⟩ 7
        = ⟨"a1", "Lamp", "Desk lamp", 5, "home", true, 3, 3⟩ :=
  ⟨rfl,
   (C4_update_frame ⟨"a1", "Lamp", "Desk lamp", 5, "home", true, 3, 3⟩
     ⟨none, none, some 9, none, none⟩ 7).1 rfl,
   (C4_update_frame ⟨"a1", "Lamp", "Desk lamp", 5, "home", true, 3, 3⟩
     ⟨none, none, none, none, none⟩ 7).2.2.2.2.2.1⟩

/-- C10: in the controller update a falsy supplied value is ignored: price 0
and empty strings for name, description or category leave the field at its
prior value; inStock can still be set to false; consequently an update never
turns a nonzero price into 0. -/
theorem C10_falsy_update_ignored (p : Product) (b : CreateBody) (now : Nat) :
    (applyUpdate p ⟨b.name, b.description, some 0, b.category, b.inStock⟩ now).price
        = p.price ∧
    (applyUpdate p ⟨some "", b.description, b.price, b.category, b.inStock⟩ now).name
        = p.name ∧
    (applyUpdate p ⟨b.name, some "", b.price, b.category, b.inStock⟩ now).description
        = p.description ∧
    (applyUpdate p ⟨b.name, b.description, b.price, some "", b.inStock⟩ now).category
        = p.category ∧
    (applyUpdate p ⟨b.name, b.description, b.price, b.category, some false⟩ now).inStock
        = false ∧
    (p.price ≠ 0 → (applyUpdate p b now).price ≠ 0) := by
  refine ⟨by simp [applyUpdate], by simp [applyUpdate, strTruthy],
          by simp [applyUpdate, strTruthy], by simp [applyUpdate, strTruthy],
          by simp [applyUpdate], ?_⟩
  intro hp
  cases hb : b.price with
  | none => simp [applyUpdate, hb]; exact hp
  | some q =>
    by_cases hq : q = 0
    · simp only [applyUpdate, hb, hq]
      simp
      exact hp
    · simp [applyUpdate, hb, hq]

/-- C10 witness: with a concrete product of price 5, an update supplying price
0 keeps price 5, and the price stays nonzero. -/
theorem C10_falsy_update_ignored_witness :
    (applyUpdate ⟨"a2", "Pan", "Steel pan", 5, "kitchen", true, 1, 1⟩
      ⟨none, none, some 0, none, none⟩ 9).price = 5 ∧
    ((5 : Rat) ≠ 0 ∧
      (applyUpdate ⟨"a2", "Pan", "Steel pan", 5, "kitchen", true, 1, 1⟩
        ⟨none, none, some 0, none, none⟩ 9).price ≠ 0) :=
  ⟨(C10_falsy_update_ignored ⟨"a2", "Pan", "Steel pan", 5, "kitchen", true, 1, 1⟩
      ⟨none, none, some 0, none, none⟩ 9).1,
   by decide,
   (C10_falsy_update_ignored ⟨"a2", "Pan", "Steel pan", 5, "kitchen", true, 1, 1⟩
      ⟨none, none, some 0, none, none⟩ 9).2.2.2.2.2 (by decide)⟩

/-- A successful price validation only returns nonnegative prices. -/
theorem validatePrice_ok_nonneg (v : Option Rat) (q : Rat)
    (h : validatePrice v = .ok q) : 0 ≤ q := by
  cases v with
  | none => exact absurd h (by simp [validatePrice])
  | some r =>
    by_cases hr : r < 0
    · simp [validatePrice, hr] at h
    · simp only [validatePrice, if_neg hr] at h
      cases h
      exact not_lt.mp hr

/-- A negative price fails validation. -/
theorem validatePrice_neg (q : Rat) (h : q < 0) :
    validatePrice (some q) = .error "Price must be a positive number" := by
  simp [validatePrice, h]

/-- A successful category validation only returns enumeration members. -/
theorem validateCategory_ok_mem (v : Option String) (c : String)
    (h : validateCategory v = .ok c) : c ∈ validCategories := by
  cases v with
  | none => exact absurd h (by simp [validateCategory])
  | some s =>
    simp only [validateCategory] at h
    split at h
    · exact absurd h (by simp)
    · split at h
      · cases h; assumption
      · exact absurd h (by simp)

/-- A category outside the enumeration (after lower-casing) fails validation. -/
theorem validateCategory_invalid (s : String) (h : lowerStr s ∉ validCategories) :
    ∃ e, validateCategory (some s) = .error e := by
  simp only [validateCategory, if_neg h]
  split
  · exact ⟨_, rfl⟩
  · exact ⟨_, rfl⟩

/-- Successful document validation yields the two invariants of the claim. -/
theorem mongooseValidate_ok_invariants (b : CreateBody) (d : ProductData)
    (h : mongooseValidate b = .ok d) :
    0 ≤ d.price ∧ d.category ∈ validCategories := by
  unfold mongooseValidate at h
  rcases hn : validateName b.name with en | n <;> rw [hn] at h
  · simp at h
  rcases hd : validateDescription b.description with ed | dd <;> rw [hd] at h
  · simp at h
  rcases hp : validatePrice b.price with ep | pp <;> rw [hp] at h
  · simp at h
  rcases hc : validateCategory b.category with ec | cc <;> rw [hc] at h
  · simp at h
  injection h with h2
  subst h2
  exact ⟨validatePrice_ok_nonneg _ _ hp, validateCategory_ok_mem _ _ hc⟩

/-- A negative supplied price makes the whole document validation fail. -/
theorem mongooseValidate_err_of_price (b : CreateBody) (q : Rat)
    (hb : b.price = some q) (hq : q < 0) :
    ∃ es, mongooseValidate b = .error es := by
  unfold mongooseValidate
  rw [hb, validatePrice_neg q hq]
  rcases validateName b.name with en | n <;>
    rcases validateDescription b.description with ed | dd <;>
    rcases validateCategory b.category with ec | cc <;>
    exact ⟨_, rfl⟩

/-- A supplied category outside the enumeration makes the document validation
fail. -/
theorem mongooseValidate_err_of_category (b : CreateBody) (s : String)
    (hb : b.category = some s) (hs : lowerStr s ∉ validCategories) :
    ∃ es, mongooseValidate b = .error es := by
  unfold mongooseValidate
  obtain ⟨e, he⟩ := validateCategory_invalid s hs
  rw [hb, he]
  rcases validateName b.name with en | n <;>
    rcases validateDescription b.description with ed | dd <;>
    rcases validatePrice b.price with ep | pp <;>
    exact ⟨_, rfl⟩

/-- C5: every product in the store after a create satisfies the invariants
(price nonnegative, category in the fixed enumeration) provided the store
satisfied them before, and a create whose payload carries a negative price, or
a category outside the enumeration, fails with a ValidationError and leaves
the store unchanged. -/
theorem C5_create_invariants (store : Store) (b : CreateBody) (newId : String)
    (now : Nat)
    (hstore : ∀ p ∈ store, 0 ≤ p.price ∧ p.category ∈ validCategories) :
    (∀ p ∈ (createProduct store b newId now).2,
      0 ≤ p.price ∧ p.category ∈ validCategories) ∧
    (∀ q, b.price = some q → q < 0 →
      (createProduct store b newId now).2 = store ∧
      ∃ es, (createProduct store b newId now).1 = Except.error es) ∧
    (∀ s, b.category = some s → lowerStr s ∉ validCategories →
      (createProduct store b newId now).2 = store ∧
      ∃ es, (createProduct store b newId now).1 = Except.error es) := by
  refine ⟨?_, ?_, ?_⟩
  · intro p hp
    rcases hv : mongooseValidate { b with inStock := some (b.inStock.getD true) }
      with es | d
    · simp only [createProduct, hv] at hp
      exact hstore p hp
    · simp only [createProduct, hv, List.mem_append, List.mem_singleton] at hp
      rcases hp with hp | rfl
      · exact hstore p hp
      · exact ⟨(mongooseValidate_ok_invariants _ _ hv).1,
               (mongooseValidate_ok_invariants _ _ hv).2⟩
  · intro q hbq hq
    obtain ⟨es, hes⟩ := mongooseValidate_err_of_price
      { b with inStock := some (b.inStock.getD true) } q hbq hq
    exact ⟨by simp [createProduct, hes], es, by simp [createProduct, hes]⟩
  · intro s hbs hs
    obtain ⟨es, hes⟩ := mongooseValidate_err_of_category
      { b with inStock := some (b.inStock.getD true) } s hbs hs
    exact ⟨by simp [createProduct, hes], es, by simp [createProduct, hes]⟩

/-- C5 witness: creating with a negative price on an empty store fails and
inserts nothing, and the resulting store still satisfies the invariants. -/
theorem C5_create_invariants_witness :
    (∀ p ∈ (createProduct []
        ⟨some "Television", some "Wide screen", some (-1), some "electronics", none⟩
        "id1" 0).2,
      0 ≤ p.price ∧ p.category ∈ validCategories) ∧
    (createProduct []
        ⟨some "Television", some "Wide screen", some (-1), some "electronics", none⟩
        "id1" 0).2 = [] ∧
    ∃ es, (createProduct []
        ⟨some "Television", some "Wide screen", some (-1), some "electronics", none⟩
        "id1" 0).1 = Except.error es := by
  have h := C5_create_invariants []
    ⟨some "Television", some "Wide screen", some (-1), some "electronics", none⟩
    "id1" 0 (by simp)
  exact ⟨h.1, (h.2.1 (-1) rfl (by decide)).1, (h.2.1 (-1) rfl (by decide)).2⟩

/-- For a positive limit the natural ceiling division agrees with the exact
rational ceiling, which is the reading Math.ceil(total / limit) has in the
source. -/
theorem ceilDivNat_eq_ceil (t l : Nat) (hl : 0 < l) :
    (ceilDivNat t l : ℤ) = ⌈(t : ℚ) / (l : ℚ)⌉ := by
  have hl0 : (0 : ℚ) < (l : ℚ) := by exact_mod_cast hl
  have h1 : ceilDivNat t l * l ≤ t + l - 1 := Nat.div_mul_le_self _ _
  have h2 : t + l - 1 < (ceilDivNat t l + 1) * l :=
    (Nat.div_lt_iff_lt_mul hl).mp (Nat.lt_succ_self _)
  rw [Nat.succ_mul] at h2
  have ht : t ≤ ceilDivNat t l * l := by omega
  have ht2 : ((ceilDivNat t l * l : ℕ) : ℤ) - l < t := by omega
  have ht2q : (ceilDivNat t l : ℚ) * (l : ℚ) - (l : ℚ) < (t : ℚ) := by
    have := ht2
    push_cast at this
    exact_mod_cast this
  have htq : (t : ℚ) ≤ (ceilDivNat t l : ℚ) * (l : ℚ) := by exact_mod_cast ht
  rw [eq_comm, Int.ceil_eq_iff]
  constructor
  · rw [lt_div_iff₀ hl0]
    push_cast
    have hml : ((ceilDivNat t l : ℚ) - 1) * (l : ℚ)
        = (ceilDivNat t l : ℚ) * (l : ℚ) - (l : ℚ) := by ring
    rw [hml]
    exact ht2q
  · rw [div_le_iff₀ hl0]
    push_cast
    exact htq

/-- C6: for every list request with a positive limit, totalPages equals the
ceiling of total over limit, hasNextPage holds exactly when page < totalPages,
and hasPreviousPage exactly when page > 1. -/
theorem C6_pagination_flags (store : Store) (q : ListQuery) (hl : 0 < q.limit) :
    ((getProducts store q).totalPages : ℤ)
        = ⌈((getProducts store q).total : ℚ) / (q.limit : ℚ)⌉ ∧
    ((getProducts store q).hasNextPage = true ↔
      (getProducts store q).page < (getProducts store q).totalPages) ∧
    ((getProducts store q).hasPreviousPage = true ↔
      1 < (getProducts store q).page) := by
  refine ⟨?_, ?_, ?_⟩
  · exact ceilDivNat_eq_ceil _ _ hl
  · simp [getProducts]
  · simp [getProducts]

/-- C6 witness at the default query (page 1, limit 10) on the empty store. -/
theorem C6_pagination_flags_witness :
    0 < (10 : Nat) ∧
    (((getProducts [] ⟨none, none, none, none, none, 1, 10, "-createdAt"⟩).totalPages : ℤ)
        = ⌈((getProducts [] ⟨none, none, none, none, none, 1, 10, "-createdAt"⟩).total : ℚ)
            / ((10 : Nat) : ℚ)⌉ ∧
      ((getProducts [] ⟨none, none, none, none, none, 1, 10, "-createdAt"⟩).hasNextPage = true ↔
        (getProducts [] ⟨none, none, none, none, none, 1, 10, "-createdAt"⟩).page
          < (getProducts [] ⟨none, none, none, none, none, 1, 10, "-createdAt"⟩).totalPages) ∧
      ((getProducts [] ⟨none, none, none, none, none, 1, 10, "-createdAt"⟩).hasPreviousPage = true ↔
        1 < (getProducts [] ⟨none, none, none, none, none, 1, 10, "-createdAt"⟩).page)) :=
  ⟨by decide, C6_pagination_flags [] ⟨none, none, none, none, none, 1, 10, "-createdAt"⟩ (by decide)⟩

/-- The reduce over the group counts equals the sum of the mapped counts. -/
theorem foldl_add_count (l : List CategoryStat) (a : Nat) :
    l.foldl (fun acc s => acc + s.count) a = a + (l.map (fun s => s.count)).sum := by
  induction l generalizing a with
  | nil => simp
  | cons x xs ih =>
    simp only [List.foldl_cons, List.map_cons, List.sum_cons, ih]
    omega

/-- The length of the category-filtered store is the count of that category in
the projected category list. -/
theorem length_filter_category (store : Store) (c : String) :
    (store.filter (fun p => p.category == c)).length
      = List.count c (store.map (fun p => p.category)) := by
  induction store with
  | nil => rfl
  | cons p t ih =>
    by_cases h : p.category = c
    · simp [List.filter_cons, h, List.count_cons, ih]
    · simp [List.filter_cons, h, List.count_cons, ih]

/-- The groups of the statistics aggregation partition the store: the group
counts sum to the store length. -/
theorem sum_byCategory_counts (store : Store) :
    ((byCategory store).map (fun s => s.count)).sum = store.length := by
  have hperm : (statCategories store).Perm ((store.map (fun p => p.category)).dedup) :=
    List.mergeSort_perm _ _
  have h1 : (byCategory store).map (fun s => s.count)
      = (statCategories store).map
          (fun c => (store.filter (fun p => p.category == c)).length) := by
    simp [byCategory, List.map_map, Function.comp]
  rw [h1]
  have h2 : ((statCategories store).map
        (fun c => (store.filter (fun p => p.category == c)).length)).sum
      = (((store.map (fun p => p.category)).dedup).map
          (fun c => (store.filter (fun p => p.category == c)).length)).sum :=
    (hperm.map _).sum_eq
  rw [h2]
  have h3 : (((store.map (fun p => p.category)).dedup).map
        (fun c => (store.filter (fun p => p.category == c)).length))
      = (((store.map (fun p => p.category)).dedup).map
          (fun c => List.count c (store.map (fun p => p.category)))) :=
    List.map_congr_left (fun c _ => length_filter_category store c)
  rw [h3]
  have h4 := List.sum_map_count_dedup_eq_length (store.map (fun p => p.category))
  simpa using h4

/-- C7: in the statistics response the per-category counts sum to
totalProducts, and inStock plus outOfStock equals totalProducts. -/
theorem C7_stats_totals (store : Store) :
    ((getProductStats store).byCategory.map (fun s => s.count)).sum
        = (getProductStats store).totalProducts ∧
    (getProductStats store).inStock + (getProductStats store).outOfStock
        = (getProductStats store).totalProducts := by
  have hfold : (getProductStats store).totalProducts
      = ((byCategory store).map (fun s => s.count)).sum := by
    show (byCategory store).foldl (fun acc s => acc + s.count) 0 = _
    rw [foldl_add_count]
    omega
  constructor
  · show ((byCategory store).map (fun s => s.count)).sum = _
    rw [hfold]
  · show (store.filter (fun p => p.inStock)).length
        + ((getProductStats store).totalProducts
            - (store.filter (fun p => p.inStock)).length)
        = (getProductStats store).totalProducts
    have hle : (store.filter (fun p => p.inStock)).length
        ≤ (getProductStats store).totalProducts := by
      rw [hfold, sum_byCategory_counts]
      exact List.length_filter_le _ _
    omega

/-- The sort stage permutes its input. -/
theorem applySort_perm (s : String) (l : List Product) : (applySort s l).Perm l := by
  unfold applySort
  by_cases h : "-".data.isPrefixOf s.data = true
  · simp only [h, if_true]
    exact (List.reverse_perm _).trans (List.mergeSort_perm _ _)
  · simp only [h]
    simp only [Bool.false_eq_true, if_false]
    exact List.mergeSort_perm _ _

/-- C8: for a list request whose only filter is the category parameter, every
returned item comes from the store with its category among the comma-separated
entries of the parameter; and when the window covers all matches (page 1 and
limit at least the match count) the returned data is exactly the matching
records, up to the sort order. -/
theorem C8_category_filter (store : Store) (c srt : String) (page limit : Nat)
    (hc : c ≠ "") :
    (∀ p ∈ (getProducts store ⟨none, none, none, some c, none, page, limit, srt⟩).data,
      p ∈ store ∧ p.category ∈ splitComma c) ∧
    (page = 1 →
      (store.filter (fun p => (splitComma c).contains p.category)).length ≤ limit →
      ((getProducts store ⟨none, none, none, some c, none, page, limit, srt⟩).data).Perm
        (store.filter (fun p => (splitComma c).contains p.category))) := by
  have hfilt : store.filter (matchesQuery ⟨none, none, none, some c, none, page, limit, srt⟩)
      = store.filter (fun p => (splitComma c).contains p.category) := by
    apply List.filter_congr
    intro p _
    simp [matchesQuery, nameFilter, priceFilter, categoryFilter, stockFilter,
      strTruthy, hc]
  constructor
  · intro p hp
    have h1 : p ∈ applySort srt
        (store.filter (matchesQuery ⟨none, none, none, some c, none, page, limit, srt⟩)) :=
      List.mem_of_mem_drop (List.mem_of_mem_take hp)
    have h2 := (applySort_perm _ _).mem_iff.mp h1
    rw [hfilt] at h2
    have h3 := List.mem_filter.mp h2
    refine ⟨h3.1, ?_⟩
    simpa using h3.2
  · intro hpage hlen
    subst hpage
    have hlen2 : (applySort srt
        (store.filter (matchesQuery ⟨none, none, none, some c, none, 1, limit, srt⟩))).length
          ≤ limit := by
      rw [(applySort_perm _ _).length_eq, hfilt]
      exact hlen
    have heq : (getProducts store ⟨none, none, none, some c, none, 1, limit, srt⟩).data
        = applySort srt
            (store.filter (matchesQuery ⟨none, none, none, some c, none, 1, limit, srt⟩)) := by
      show ((applySort srt _).drop ((1 - 1) * limit)).take limit = _
      rw [show (1 - 1) * limit = 0 by omega, List.drop_zero]
      exact List.take_of_length_le hlen2
    rw [heq, ← hfilt]
    exact applySort_perm _ _

/-- C8 witness at a concrete two-product store and the category list
"electronics,clothing": the window covers the matches and the returned data is
exactly the electronics product. -/
theorem C8_category_filter_witness :
    ("electronics,clothing" : String) ≠ "" ∧
    (([⟨"e1", "Phone", "Smart phone", 100, "electronics", true, 1, 1⟩,
       ⟨"h1", "Chair", "Wood chair", 50, "home", true, 2, 2⟩] : Store).filter
        (fun p => (splitComma "electronics,clothing").contains p.category)).length ≤ 10 ∧
    ((getProducts
        ([⟨"e1", "Phone", "Smart phone", 100, "electronics", true, 1, 1⟩,
          ⟨"h1", "Chair", "Wood chair", 50, "home", true, 2, 2⟩] : Store)
        ⟨none, none, none, some "electronics,clothing", none, 1, 10, "-createdAt"⟩).data).Perm
      (([⟨"e1", "Phone", "Smart phone", 100, "electronics", true, 1, 1⟩,
         ⟨"h1", "Chair", "Wood chair", 50, "home", true, 2, 2⟩] : Store).filter
          (fun p => (splitComma "electronics,clothing").contains p.category)) :=
  ⟨by decide, by decide,
   (C8_category_filter
      ([⟨"e1", "Phone", "Smart phone", 100, "electronics", true, 1, 1⟩,
        ⟨"h1", "Chair", "Wood chair", 50, "home", true, 2, 2⟩] : Store)
      "electronics,clothing" "-createdAt" 1 10 (by decide)).2 rfl (by decide)⟩
